import Mathlib

/-!
Shallow embedding of the astrological computation engine of the
Water-Wind-Official/aterica repository, together with proofs of the
specification's testable properties.

Numbers are modelled by `ℚ` (the engine's arithmetic is exact on the inputs
the properties quantify over) and machine integers by `ℕ`/`ℤ`.  JavaScript's
truncating remainder `%`, `Math.floor` and `Math.round` are embedded
explicitly (`jsRem`, `jround`).  External collaborators (the Swiss Ephemeris
adapter, geocoding) are modelled by passing their outputs as arguments.
-/

namespace Aterica

/-- The seven classical bodies (`type Planet` in the source). -/
inductive Planet where
  | Sun | Moon | Mercury | Venus | Mars | Jupiter | Saturn
  deriving DecidableEq, Repr, Fintype

/-- The twelve zodiac signs (`type ZodiacSign` in the source). -/
inductive ZodiacSign where
  | Aries | Taurus | Gemini | Cancer | Leo | Virgo
  | Libra | Scorpio | Sagittarius | Capricorn | Aquarius | Pisces
  deriving DecidableEq, Repr, Fintype

/-- Essential dignity classification (the `dignity` field of
`PlanetaryDignity` in the source). -/
inductive Dignity where
  | Domicile | Exaltation | Detriment | Fall | Neutral
  deriving DecidableEq, Repr, Fintype

/-- The five elements (`type Element` in the source). -/
inductive Element where
  | Fire | Earth | Air | Water | Spirit
  deriving DecidableEq, Repr, Fintype

/-- The five tattvas (`type Tattva` in the source). -/
inductive Tattva where
  | Akasha | Vayu | Tejas | Apas | Prithvi
  deriving DecidableEq, Repr, Fintype

/-- Result of `calculateDignityScore` (interface `PlanetaryDignity` minus the
`longitude` field, which `getAllPlanetaryDignities` adds by spreading). -/
structure PlanetaryDignity where
  planet : Planet
  sign : ZodiacSign
  dignity : Dignity
  score : ℤ
  isRetrograde : Bool
  deriving DecidableEq, Repr

/-- A `PlanetaryDignity` together with the ecliptic longitude, as produced by
`getAllPlanetaryDignities` in the source (`{ ...dignity, longitude }`). -/
structure PlacedDignity extends PlanetaryDignity where
  longitude : ℚ
  deriving DecidableEq, Repr

/-- One body's row of the `PLANETARY_DIGNITIES` table. -/
structure DignityTableRow where
  domiciles : List ZodiacSign
  exaltation : ZodiacSign
  detriment : List ZodiacSign
  fall : ZodiacSign
  deriving DecidableEq, Repr

open Planet ZodiacSign in
/-- The fixed `PLANETARY_DIGNITIES` table of the source. -/
def PLANETARY_DIGNITIES : Planet → DignityTableRow
  | Sun => ⟨[Leo], Aries, [Aquarius], Libra⟩
  | Moon => ⟨[Cancer], Taurus, [Capricorn], Scorpio⟩
  | Mercury => ⟨[Gemini, Virgo], Virgo, [Sagittarius, Pisces], Pisces⟩
  | Venus => ⟨[Taurus, Libra], Pisces, [Aries, Scorpio], Virgo⟩
  | Mars => ⟨[Aries, Scorpio], Capricorn, [Libra, Taurus], Cancer⟩
  | Jupiter => ⟨[Sagittarius, Pisces], Cancer, [Gemini, Virgo], Capricorn⟩
  | Saturn => ⟨[Capricorn, Aquarius], Libra, [Cancer, Leo], Aries⟩

/-- `ZODIAC_SIGNS`: the fixed 12-sign sequence, in order from 0°. -/
def ZODIAC_SIGNS : List ZodiacSign :=
  [.Aries, .Taurus, .Gemini, .Cancer, .Leo, .Virgo,
   .Libra, .Scorpio, .Sagittarius, .Capricorn, .Aquarius, .Pisces]

/-- `SIGN_ELEMENTS`: the fixed sign-to-element classification table. -/
def SIGN_ELEMENTS : ZodiacSign → Element
  | .Aries => .Fire
  | .Taurus => .Earth
  | .Gemini => .Air
  | .Cancer => .Water
  | .Leo => .Fire
  | .Virgo => .Earth
  | .Libra => .Air
  | .Scorpio => .Water
  | .Sagittarius => .Fire
  | .Capricorn => .Earth
  | .Aquarius => .Air
  | .Pisces => .Water

/-- `calculateDignityScore` of the source: dignity classification in priority
order domicile, exaltation, detriment, fall, otherwise neutral; then the
retrograde penalty of 2; then the clamp to [-10, 10]. -/
def calculateDignityScore (planet : Planet) (sign : ZodiacSign)
    (isRetrograde : Bool) : PlanetaryDignity :=
  let dignities := PLANETARY_DIGNITIES planet
  let dsPair : Dignity × ℤ :=
    if sign ∈ dignities.domiciles then (.Domicile, 5)
    else if sign = dignities.exaltation then (.Exaltation, 4)
    else if sign ∈ dignities.detriment then (.Detriment, -5)
    else if sign = dignities.fall then (.Fall, -4)
    else (.Neutral, 0)
  let score := if isRetrograde then dsPair.2 - 2 else dsPair.2
  let score := max (-10) (min 10 score)
  ⟨planet, sign, dsPair.1, score, isRetrograde⟩

/-- The base score attached by the specification to each dignity
classification. -/
def dignityBaseScore : Dignity → ℤ
  | .Domicile => 5
  | .Exaltation => 4
  | .Detriment => -5
  | .Fall => -4
  | .Neutral => 0

/-- Per-body disjointness of the four dignity categories of the
`PLANETARY_DIGNITIES` table: no sign lies in two distinct categories. -/
def categoriesDisjoint (p : Planet) : Prop :=
  ∀ s : ZodiacSign,
    (s ∈ (PLANETARY_DIGNITIES p).domiciles →
      s ≠ (PLANETARY_DIGNITIES p).exaltation ∧
      s ∉ (PLANETARY_DIGNITIES p).detriment ∧
      s ≠ (PLANETARY_DIGNITIES p).fall) ∧
    (s = (PLANETARY_DIGNITIES p).exaltation →
      s ∉ (PLANETARY_DIGNITIES p).detriment ∧
      s ≠ (PLANETARY_DIGNITIES p).fall) ∧
    (s ∈ (PLANETARY_DIGNITIES p).detriment →
      s ≠ (PLANETARY_DIGNITIES p).fall)

instance (p : Planet) : Decidable (categoriesDisjoint p) := by
  unfold categoriesDisjoint; infer_instance

/-! ### JavaScript numeric primitives -/

/-- JavaScript truncation toward zero (the implicit rounding of the `%`
remainder operator). -/
def jtrunc (q : ℚ) : ℤ :=
  if q < 0 then -⌊-q⌋ else ⌊q⌋

/-- JavaScript's `%` operator on numbers: the remainder carries the sign of
the dividend. -/
def jsRem (a b : ℚ) : ℚ :=
  a - b * jtrunc (a / b)

/-- JavaScript's `Math.round`: half-way cases round toward positive
infinity. -/
def jround (q : ℚ) : ℤ :=
  ⌊q + 1 / 2⌋

/-- The source's recurring normalization idiom
`lon = lon % 360; if (lon < 0) lon += 360;` (used by `longitudeToSign`,
`normalizeLongitude` and `calculateHouseCusps`). -/
def normalize360 (lon : ℚ) : ℚ :=
  let r := jsRem lon 360
  if r < 0 then r + 360 else r

/-! ### Temporal rulers -/

/-- The fields of a JavaScript `Date` that the embedded functions consult:
`getDay()` (weekday, 0 = Sunday), `getHours()`, `getMonth()` (0-based), and
`getTime()` (milliseconds since the epoch). -/
structure LocalDate where
  weekday : Fin 7
  hours : Fin 24
  month : Fin 12
  millis : ℚ

/-- The fixed day-ruler table of `getDayRuler`, indexed by weekday. -/
def dayRulers : List Planet :=
  [.Sun, .Moon, .Mars, .Mercury, .Jupiter, .Venus, .Saturn]

/-- The fixed Chaldean descending sequence used by the hour-ruler
calculators. -/
def chaldeanOrder : List Planet :=
  [.Saturn, .Jupiter, .Mars, .Sun, .Venus, .Mercury, .Moon]

/-- `getDayRuler` of the source: the weekday indexes the fixed table. -/
def getDayRuler (date : LocalDate) : Planet :=
  dayRulers.get ⟨date.weekday.val, date.weekday.isLt⟩

/-- `getHourRuler` of the source (the simplified location-free fallback):
walk `getHours()` steps from the day ruler through the Chaldean order,
wrapping modulo 7. -/
def getHourRuler (date : LocalDate) : Planet :=
  let dayRulerIndex := chaldeanOrder.indexOf (getDayRuler date)
  let hoursSinceMidnight := date.hours.val
  let hourIndex := (dayRulerIndex + hoursSinceMidnight) % 7
  chaldeanOrder.get ⟨hourIndex, Nat.mod_lt _ (by decide)⟩

/-- The successor function of the Chaldean cycle
Saturn → Jupiter → Mars → Sun → Venus → Mercury → Moon → Saturn, used to
state what "walking one step forward through the Chaldean order" means. -/
def chaldeanNext : Planet → Planet
  | .Saturn => .Jupiter
  | .Jupiter => .Mars
  | .Mars => .Sun
  | .Sun => .Venus
  | .Venus => .Mercury
  | .Mercury => .Moon
  | .Moon => .Saturn

/-- `getTattva` of the source: minutes since sunrise, JavaScript-remainder
120, bucketed into five 24-minute slices.  Times are in milliseconds since
the epoch, as `Date.getTime()` returns. -/
def getTattva (currentTimeMillis sunriseMillis : ℚ) : Tattva :=
  let timeSinceSunrise := currentTimeMillis - sunriseMillis
  let minutesSinceSunrise := timeSinceSunrise / (1000 * 60)
  let cyclePosition := jsRem minutesSinceSunrise 120
  if cyclePosition < 24 then .Akasha
  else if cyclePosition < 48 then .Vayu
  else if cyclePosition < 72 then .Tejas
  else if cyclePosition < 96 then .Apas
  else .Prithvi

/-! ### Zodiac mapper -/

/-- `longitudeToSign` of the source: normalize the longitude into [0, 360),
integer-divide by 30, and index the `ZODIAC_SIGNS` array.  The array access
is embedded by `List.get?` so that an out-of-bounds index would surface as
`none` (JavaScript `undefined`). -/
def longitudeToSign (longitude : ℚ) : Option ZodiacSign :=
  let normalized := normalize360 longitude
  let signIndex := ⌊normalized / 30⌋
  ZODIAC_SIGNS.get? signIndex.toNat

/-! ### House system calculator

`calculateHouseCusps` first asks the ephemeris adapter (`swe_houses`) for raw
cusp and angle arrays.  The adapter is external, so the embedding takes its
two arrays as inputs; an entry is `some q` when the JavaScript value at that
index is a regular number and `none` when it is `undefined`, `null`, or
`NaN` (exactly the validity test `cusps[i] !== undefined && cusps[i] !==
null && !isNaN(cusps[i])` of the source). -/

/-- The result record, interface `HouseCusps` of the source. -/
structure HouseCusps where
  houses : List ℚ
  ascendant : ℚ
  mc : ℚ
  ic : ℚ
  descendant : ℚ
  deriving DecidableEq, Repr

/-- One iteration of the cusp-extraction loop of `calculateHouseCusps`: a
valid adapter cusp at index `i` is normalized into [0, 360), and an invalid
one falls back to `(i - 1) * 30`. -/
def extractHouse (cusps : List (Option ℚ)) (i : ℕ) : ℚ :=
  match cusps.get? i with
  | some (some c) => normalize360 c
  | _ => ((i : ℚ) - 1) * 30

/-- The cusp-extraction loop of `calculateHouseCusps`, `i` from 1 to 12. -/
def extractHouses (cusps : List (Option ℚ)) : List ℚ :=
  ([1, 2, 3, 4, 5, 6, 7, 8, 9, 10, 11, 12] : List ℕ).map (extractHouse cusps)

/-- `calculateHouseCusps` of the source, given the adapter's `cusps` and
`ascmc` arrays: extract the 12 cusps, the Ascendant (falling back to the
first cusp, then 0) and the MC (falling back to the tenth cusp, then 0),
then derive IC and Descendant as the JavaScript remainders
`(mc + 180) % 360` and `(ascendant + 180) % 360`. -/
def calculateHouseCusps (cusps ascmc : List (Option ℚ)) : HouseCusps :=
  let houses := extractHouses cusps
  let ascendant :=
    match ascmc.get? 0 with
    | some (some a) => normalize360 a
    | _ => houses.getD 0 0
  let mc :=
    match ascmc.get? 1 with
    | some (some m) => normalize360 m
    | _ => houses.getD 9 0
  let ic := jsRem (mc + 180) 360
  let descendant := jsRem (ascendant + 180) 360
  { houses := houses, ascendant := ascendant, mc := mc, ic := ic,
    descendant := descendant }

/-- True mathematical modulus into [0, 360), used on the specification side
of the IC/Descendant invariant. -/
def qmod360 (a : ℚ) : ℚ :=
  a - 360 * ⌊a / 360⌋

/-! ### Alignment detector -/

/-- The alignment type tags of interface `PlanetaryAlignment`. -/
inductive AlignmentType where
  | Conjunction | Opposition | GrandTrine | TSquare | GrandCross | Stellium
  | Linear
  deriving DecidableEq, Repr

/-- Interface `PlanetaryAlignment` of the source (the human-readable
`description` string is presentation data and is not modelled). -/
structure PlanetaryAlignment where
  planets : List Planet
  type : AlignmentType
  strength : ℤ
  deriving DecidableEq, Repr

/-- `angularDistance` of the source: the smaller arc between two longitudes,
in [0, 180]. -/
def angularDistance (lon1 lon2 : ℚ) : ℚ :=
  let diff := |lon1 - lon2|
  if diff > 180 then 360 - diff else diff

/-- All ordered pairs `(xs[i], xs[j])` with `i < j`, in the order of the
source's nested `for` loops. -/
def loopPairs : List α → List (α × α)
  | [] => []
  | x :: xs => xs.map (fun y => (x, y)) ++ loopPairs xs

/-- All ordered triples `(xs[i], xs[j], xs[k])` with `i < j < k`, in the
order of the source's nested `for` loops. -/
def loopTriples : List α → List (α × α × α)
  | [] => []
  | x :: xs => (loopPairs xs).map (fun p => (x, p.1, p.2)) ++ loopTriples xs

/-- Ascending sort of three rationals (the `[lon1, lon2, lon3].sort((a, b) =>
a - b)` of the linear-alignment pass). -/
def sort3 (a b c : ℚ) : ℚ × ℚ × ℚ :=
  if a ≤ b then
    if b ≤ c then (a, b, c)
    else if a ≤ c then (a, c, b)
    else (c, a, b)
  else
    if a ≤ c then (b, a, c)
    else if b ≤ c then (b, c, a)
    else (c, b, a)

/-- The signs present in a dignity list, in order of first occurrence: the
key enumeration order of the source's `signGroups` object. -/
def signsInOrder (dignities : List PlacedDignity) : List ZodiacSign :=
  dignities.foldl
    (fun acc d => if d.sign ∈ acc then acc else acc ++ [d.sign]) []

/-- `detectAlignments` of the source: the conjunction, opposition, linear
and stellium passes run independently and their outputs are concatenated in
that order. -/
def detectAlignments (dignities : List PlacedDignity) :
    List PlanetaryAlignment :=
  let tolerance : ℚ := 8
  let conjunctions :=
    (loopPairs dignities).filterMap fun p =>
      let dist := angularDistance p.1.longitude p.2.longitude
      if dist ≤ tolerance then
        some ⟨[p.1.planet, p.2.planet], .Conjunction,
          jround (100 * (1 - dist / tolerance))⟩
      else none
  let oppositions :=
    (loopPairs dignities).filterMap fun p =>
      let dist := angularDistance p.1.longitude p.2.longitude
      if |dist - 180| ≤ tolerance then
        some ⟨[p.1.planet, p.2.planet], .Opposition,
          jround (100 * (1 - |dist - 180| / tolerance))⟩
      else none
  let linears :=
    (loopTriples dignities).filterMap fun t =>
      let lon1 := normalize360 t.1.longitude
      let lon2 := normalize360 t.2.1.longitude
      let lon3 := normalize360 t.2.2.longitude
      let sorted := sort3 lon1 lon2 lon3
      let dist1 := sorted.2.1 - sorted.1
      let dist2 := sorted.2.2 - sorted.2.1
      let dist3 := 360 - sorted.2.2 + sorted.1
      let linearTolerance : ℚ := 15
      if |dist1 - dist2| ≤ linearTolerance ∨
          |dist2 - dist3| ≤ linearTolerance ∨
          |dist3 - dist1| ≤ linearTolerance then
        some ⟨[t.1.planet, t.2.1.planet, t.2.2.planet], .Linear, 75⟩
      else none
  let stelliums :=
    (signsInOrder dignities).filterMap fun s =>
      let group := dignities.filter (fun d => d.sign = s)
      if 3 ≤ group.length then
        some ⟨group.map (·.planet), .Stellium, (group.length : ℤ) * 15⟩
      else none
  conjunctions ++ oppositions ++ linears ++ stelliums

/-! ### Lunar phase calculator

`getMoonPhase` obtains the Sun and Moon longitudes from the ephemeris
adapter and then computes pure trigonometric arithmetic; the embedding takes
the two longitudes as inputs and works over `ℝ` because of `Math.cos`. -/

/-- The eight phase names (`type MoonPhase` of the source). -/
inductive MoonPhase where
  | NewMoon | WaxingCrescent | FirstQuarter | WaxingGibbous
  | FullMoon | WaningGibbous | LastQuarter | WaningCrescent
  deriving DecidableEq, Repr

/-- Interface `MoonPhaseInfo` of the source. -/
structure MoonPhaseInfo where
  phase : MoonPhase
  illumination : ℝ
  age : ℝ

/-- JavaScript `Math.round` on a real argument. -/
noncomputable def jroundR (x : ℝ) : ℤ :=
  ⌊x + 1 / 2⌋

open Classical in
/-- `getMoonPhase` of the source, as a function of the two adapter-supplied
longitudes: elongation normalized into [0, 360), illumination
`(1 - cos) / 2 * 100`, age `elongation / 360` of a synodic month, phase from
eight 45°-wide buckets, illumination and age rounded to one decimal. -/
noncomputable def getMoonPhase (sunLongitude moonLongitude : ℝ) :
    MoonPhaseInfo :=
  let elongation := moonLongitude - sunLongitude
  let elongation := if elongation < 0 then elongation + 360 else elongation
  let elongation := if elongation ≥ 360 then elongation - 360 else elongation
  let elongationRad := elongation * Real.pi / 180
  let illumination := (1 - Real.cos elongationRad) / 2 * 100
  let synodicMonth : ℝ := 29.53058867
  let age := elongation / 360 * synodicMonth
  let phase : MoonPhase :=
    if elongation < 22.5 ∨ elongation ≥ 337.5 then .NewMoon
    else if elongation < 67.5 then .WaxingCrescent
    else if elongation < 112.5 then .FirstQuarter
    else if elongation < 157.5 then .WaxingGibbous
    else if elongation < 202.5 then .FullMoon
    else if elongation < 247.5 then .WaningGibbous
    else if elongation < 292.5 then .LastQuarter
    else .WaningCrescent
  { phase := phase,
    illumination := (jroundR (illumination * 10) : ℝ) / 10,
    age := (jroundR (age * 10) : ℝ) / 10 }

/-! ### Elemental profile accumulator

`calculateElementalProfile` first gathers external data (sunrise/sunset from
the adapter, from which it derives the planetary hour and the tattva, and
the seven body placements).  The embedding takes those derived quantities as
arguments — `tattva` and `hourRuler` stand for the values `getTattva` and
`getPlanetaryHour(...).ruler` return, and `dignities` for the adapter-backed
`getAllPlanetaryDignities` result — and embeds everything downstream of them
exactly.  The human-readable `details` strings of the breakdown entries are
presentation data and are not modelled. -/

/-- The mutable `buffs` record of the source (a per-element accumulator,
including its never-incremented `spirit` field). -/
structure ElementBuffs where
  fire : ℚ
  earth : ℚ
  air : ℚ
  water : ℚ
  spirit : ℚ
  deriving DecidableEq, Repr

def zeroBuffs : ElementBuffs := ⟨0, 0, 0, 0, 0⟩

/-- Pointwise sum of two buff records (used on the proof side to decompose
the sequential accumulation). -/
def bAdd (b c : ElementBuffs) : ElementBuffs :=
  ⟨b.fire + c.fire, b.earth + c.earth, b.air + c.air, b.water + c.water,
   b.spirit + c.spirit⟩

/-- `buffs[element.toLowerCase()] += amount` of the source. -/
def addBuff (b : ElementBuffs) : Element → ℚ → ElementBuffs
  | .Fire, q => { b with fire := b.fire + q }
  | .Earth, q => { b with earth := b.earth + q }
  | .Air, q => { b with air := b.air + q }
  | .Water, q => { b with water := b.water + q }
  | .Spirit, q => { b with spirit := b.spirit + q }

/-- The per-body weights of the planetary-position pass (Sun 13.5, Moon 9,
each remaining body 6), identical in the buff pass and the breakdown
pass. -/
def positionWeight : Planet → ℚ
  | .Sun => 13.5
  | .Moon => 9
  | _ => 6

/-- One step of both position passes: add the body's weight to the element
of its sign. -/
def positionStep (b : ElementBuffs) (d : PlacedDignity) : ElementBuffs :=
  addBuff b (SIGN_ELEMENTS d.sign) (positionWeight d.planet)

/-- `tattvaToElement` of the source. -/
def tattvaToElement : Tattva → Element
  | .Akasha => .Spirit
  | .Vayu => .Air
  | .Tejas => .Fire
  | .Apas => .Water
  | .Prithvi => .Earth

/-- `getPlanetaryHourElement` of the source (the secondary planet → element
map, distinct from the sign-element table). -/
def getPlanetaryHourElement : Planet → Element
  | .Sun => .Fire
  | .Mars => .Fire
  | .Jupiter => .Air
  | .Mercury => .Air
  | .Moon => .Water
  | .Venus => .Water
  | .Saturn => .Earth

/-- The four seasons of `getSeason`. -/
inductive Season where
  | Winter | Spring | Summer | Fall
  deriving DecidableEq, Repr

/-- `getSeason` of the source: month bucket, reversed in the southern
hemisphere. -/
def getSeason (month : Fin 12) (latitude : ℚ) : Season :=
  if latitude ≥ 0 then
    if 2 ≤ month.val ∧ month.val ≤ 4 then .Spring
    else if 5 ≤ month.val ∧ month.val ≤ 7 then .Summer
    else if 8 ≤ month.val ∧ month.val ≤ 10 then .Fall
    else .Winter
  else
    if 2 ≤ month.val ∧ month.val ≤ 4 then .Fall
    else if 5 ≤ month.val ∧ month.val ≤ 7 then .Winter
    else if 8 ≤ month.val ∧ month.val ≤ 10 then .Spring
    else .Summer

/-- The recognized weather categories of the weather switch; `Other` stands
for any other non-null weather string, which matches no case. -/
inductive WeatherKind where
  | Clear | Sunny | Windy | Drizzle | Rainstorm | ThunderStorm | Other
  deriving DecidableEq, Repr

/-- The event type tags of interface `UpcomingEvent`. -/
inductive EventType where
  | Solstice | Equinox | Eclipse | MeteorShower | PlanetaryAlignment
  deriving DecidableEq, Repr

/-- An `UpcomingEvent` as the profile accumulator consumes it: its type tag,
the outcomes of the five `name.toLowerCase().includes(...)` probes, and its
date in epoch milliseconds. -/
structure UpcomingEvent where
  type : EventType
  nameHasComet : Bool
  nameHasSolar : Bool
  nameHasLunar : Bool
  nameHasSummer : Bool
  nameHasWinter : Bool
  dateMillis : ℚ
  deriving DecidableEq, Repr

/-- The activity window test repeated verbatim in the element-buff, akasha
and breakdown event passes: solstice/equinox within 1 day, meteor shower or
comet-named alignment within 3 days, eclipse or other alignment within 24
hours. -/
def isHappening (dateMillis : ℚ) (e : UpcomingEvent) : Bool :=
  let dayDiff := |dateMillis - e.dateMillis| / (1000 * 60 * 60 * 24)
  let hourDiff := |dateMillis - e.dateMillis| / (1000 * 60 * 60)
  if e.type = .Solstice ∨ e.type = .Equinox then decide (dayDiff ≤ 1)
  else if e.type = .MeteorShower ∨
      (e.type = .PlanetaryAlignment ∧ e.nameHasComet = true) then
    decide (dayDiff ≤ 3)
  else if e.type = .Eclipse ∨ e.type = .PlanetaryAlignment then
    decide (hourDiff ≤ 24)
  else false

/-- The event switch of the element-buff pass (step 6 of the accumulator).
Note it has no `Planetary Alignment` case. -/
def applyEventBuff1 (dateMillis : ℚ) (b : ElementBuffs) (e : UpcomingEvent) :
    ElementBuffs :=
  if isHappening dateMillis e then
    match e.type with
    | .MeteorShower => { b with fire := b.fire + 11 }
    | .Equinox => { b with earth := b.earth + 20 }
    | .Eclipse =>
      if e.nameHasSolar then
        { b with water := b.water + 18, fire := b.fire - 18 }
      else if e.nameHasLunar then
        { b with water := b.water - 18, fire := b.fire + 4 }
      else b
    | .Solstice =>
      let b := { b with earth := b.earth + 11 }
      if e.nameHasSummer then { b with fire := b.fire + 6 }
      else if e.nameHasWinter then { b with water := b.water + 6 }
      else b
    | .PlanetaryAlignment => b
  else b

/-- The event switch of the breakdown pass, which additionally credits a
comet-named `Planetary Alignment` with fire +11. -/
def applyEventBuff2 (dateMillis : ℚ) (b : ElementBuffs) (e : UpcomingEvent) :
    ElementBuffs :=
  if isHappening dateMillis e then
    match e.type with
    | .MeteorShower => { b with fire := b.fire + 11 }
    | .PlanetaryAlignment =>
      if e.nameHasComet then { b with fire := b.fire + 11 } else b
    | .Equinox => { b with earth := b.earth + 20 }
    | .Eclipse =>
      if e.nameHasSolar then
        { b with water := b.water + 18, fire := b.fire - 18 }
      else if e.nameHasLunar then
        { b with water := b.water - 18, fire := b.fire + 4 }
      else b
    | .Solstice =>
      let b := { b with earth := b.earth + 11 }
      if e.nameHasSummer then { b with fire := b.fire + 6 }
      else if e.nameHasWinter then { b with water := b.water + 6 }
      else b
  else b

/-- The latitude-based fire/water trade-off, computed from the absolute
latitude; returns `(fire buff, water buff)`.  The identical formula appears
in the buff pass and in the breakdown pass. -/
def latitudeBuffs (absLat : ℚ) : ℚ × ℚ :=
  if absLat ≤ 45 then
    let ratio := absLat / 45
    (40 * (1 - ratio), -20 * (1 - ratio))
  else
    let ratio := (absLat - 45) / 45
    (-20 * ratio, 40 * ratio)

/-- The season switch of the buff pass. -/
def applySeasonBuff (b : ElementBuffs) : Season → ElementBuffs
  | .Winter => { b with water := b.water + 16 }
  | .Fall => { b with air := b.air + 16 }
  | .Spring => { b with earth := b.earth + 16 }
  | .Summer => { b with fire := b.fire + 16 }

/-- The weather switch of the buff pass (a `null` weather or an unrecognized
category adds nothing). -/
def applyWeatherBuff (b : ElementBuffs) : Option WeatherKind → ElementBuffs
  | none => b
  | some .Clear => { b with earth := b.earth + 5, air := b.air + 2 }
  | some .Sunny => { b with fire := b.fire + 16 }
  | some .Windy => { b with air := b.air + 22 }
  | some .Drizzle => { b with water := b.water + 16, air := b.air + 3 }
  | some .Rainstorm => { b with water := b.water + 22, air := b.air + 22 }
  | some .ThunderStorm =>
    { b with water := b.water + 22, air := b.air + 22, fire := b.fire + 11 }
  | some .Other => b

/-- The per-alignment akasha contributions: conjunctions +7 and linear
alignments +8 per participating body, oppositions -12 per body, stelliums a
flat +30 each. -/
def alignmentAkasha (alignments : List PlanetaryAlignment) : ℚ :=
  alignments.foldl
    (fun acc a =>
      match a.type with
      | .Conjunction => acc + (a.planets.length : ℚ) * 7
      | .Opposition => acc - (a.planets.length : ℚ) * 12
      | .Linear => acc + (a.planets.length : ℚ) * 8
      | .Stellium => acc + 30
      | _ => acc)
    0

/-- The per-event akasha contributions (eclipse 100, solstice 20, equinox 9,
meteor shower 15, comet-named alignment 15). -/
def eventAkashaContribution (dateMillis : ℚ) (e : UpcomingEvent) : ℚ :=
  if isHappening dateMillis e then
    match e.type with
    | .Eclipse => 100
    | .Solstice => 20
    | .Equinox => 9
    | .MeteorShower => 15
    | .PlanetaryAlignment => if e.nameHasComet then 15 else 0
  else 0

/-- The planetary-hour-ruler akasha bonus (Saturn 9; Jupiter, Sun and Moon
4; others none). -/
def hourRulerAkasha : Planet → ℚ
  | .Saturn => 9
  | .Jupiter => 4
  | .Sun => 4
  | .Moon => 4
  | _ => 0

/-- The elemental-balance akasha bonus, computed from the four pre-spirit
element totals: zero once the relative range reaches 15% of the maximum,
rising linearly to 20 as the range approaches zero. -/
def balanceBonus (tempFire tempEarth tempAir tempWater : ℚ) : ℚ :=
  let maxValue := max (max tempFire tempEarth) (max tempAir tempWater)
  let minValue := min (min tempFire tempEarth) (min tempAir tempWater)
  if maxValue > 0 then
    let range := maxValue - minValue
    let rangePercent := range / maxValue * 100
    if rangePercent ≥ 15 then 0 else 20 * (1 - rangePercent / 15)
  else 0

/-- The source tags of the breakdown entries (`source` field of interface
`ElementalBreakdown`). -/
inductive BreakdownSource where
  | BasePercentages | PlanetaryPositions | PlanetaryHour | Tattva | Constants
  | Latitude | TimeOfDay | Season | Weather | AstrologicalEvents | Akasha
  deriving DecidableEq, Repr

/-- Interface `ElementalBreakdown` of the source (minus the presentation
`details` string). -/
structure ElementalBreakdown where
  source : BreakdownSource
  weight : ℚ
  fire : ℚ
  earth : ℚ
  air : ℚ
  water : ℚ
  spirit : ℚ
  deriving DecidableEq, Repr

/-- Interface `ElementalProfile` of the source. -/
structure ElementalProfile where
  fire : ℚ
  earth : ℚ
  air : ℚ
  water : ℚ
  spirit : ℚ
  planetaryHour : Planet
  tattva : Tattva
  moonSign : Option ZodiacSign
  breakdown : List ElementalBreakdown
  deriving DecidableEq, Repr

/-- The fixed base percentages of the accumulator. -/
def basePercentages : ElementBuffs := ⟨50, 50, 60, 50, 0⟩

/-- The season-buff record recomputed by the breakdown pass (`seasonBuffs` in
the source: an if-chain over the season, one element set to 16). -/
def seasonBuffsOf (season : Season) : ElementBuffs :=
  if season = .Summer then { zeroBuffs with fire := 16 }
  else if season = .Spring then { zeroBuffs with earth := 16 }
  else if season = .Fall then { zeroBuffs with air := 16 }
  else if season = .Winter then { zeroBuffs with water := 16 }
  else zeroBuffs

/-- The sequential buff accumulation of `calculateElementalProfile` (passes
1 through 8, in source order). -/
def profileBuffs (hour : Fin 24) (month : Fin 12)
    (dateMillis latitudeRaw : ℚ) (weather : Option WeatherKind)
    (events : List UpcomingEvent) (dignities : List PlacedDignity)
    (tattva : Tattva) (hourRuler : Planet) : ElementBuffs :=
  let tattvaElement := tattvaToElement tattva
  let planetaryHourElement := getPlanetaryHourElement hourRuler
  -- 1. planetary position buffs
  let b := dignities.foldl positionStep zeroBuffs
  -- 2. tattva hour buff
  let b := if tattvaElement ≠ .Spirit then addBuff b tattvaElement 15 else b
  -- 3. planetary hour buff
  let b := if planetaryHourElement ≠ .Spirit then
    addBuff b planetaryHourElement 11 else b
  -- 4. constant buffs
  let b := { b with earth := b.earth + 12 }
  let b := { b with water := b.water + 5 }
  let b := { b with air := b.air + 10 }
  let b := { b with fire := b.fire + 5 }
  -- 5. latitude-based buffs
  let latBuffs := latitudeBuffs |latitudeRaw|
  let b := { b with fire := b.fire + latBuffs.1 }
  let b := { b with water := b.water + latBuffs.2 }
  -- 6. time-based buffs
  let b := if 9 ≤ hour.val ∧ hour.val < 16 then
    { b with fire := b.fire + 14 } else b
  let b := if 20 ≤ hour.val ∨ hour.val < 3 then
    { b with water := b.water + 14 } else b
  -- 6. event-based buffs
  let b := events.foldl (applyEventBuff1 dateMillis) b
  -- 7. season-based buffs
  let b := applySeasonBuff b (getSeason month latitudeRaw)
  -- 8. weather-based buffs
  applyWeatherBuff b weather

/-- The akasha (spirit) accumulation of `calculateElementalProfile`, given
the final element buffs (used by the balance bonus). -/
def profileAkasha (dateMillis : ℚ) (events : List UpcomingEvent)
    (dignities : List PlacedDignity) (tattva : Tattva) (hourRuler : Planet)
    (buffs : ElementBuffs) : ℚ :=
  let alignments := detectAlignments dignities
  let akasha : ℚ := 25
  let akasha := akasha + alignmentAkasha alignments
  let akasha := if tattva = .Akasha then akasha + 15 else akasha
  let akasha := akasha + (events.map (eventAkashaContribution dateMillis)).sum
  let akasha := akasha + hourRulerAkasha hourRuler
  let tempFire := max 0 (basePercentages.fire + buffs.fire)
  let tempEarth := max 0 (basePercentages.earth + buffs.earth)
  let tempAir := max 0 (basePercentages.air + buffs.air)
  let tempWater := max 0 (basePercentages.water + buffs.water)
  let akasha := akasha + balanceBonus tempFire tempEarth tempAir tempWater
  let akasha := akasha + dignities.foldl
    (fun acc d => acc + (if d.dignity = .Detriment then (-9 : ℚ) else 0) +
      (if d.isRetrograde then (-12 : ℚ) else 0)) 0
  max 0 akasha

/-- The breakdown list of `calculateElementalProfile`, in source push
order. -/
def profileBreakdown (hour : Fin 24) (month : Fin 12)
    (dateMillis latitudeRaw : ℚ) (weather : Option WeatherKind)
    (events : List UpcomingEvent) (dignities : List PlacedDignity)
    (tattva : Tattva) (hourRuler : Planet) (akasha : ℚ) :
    List ElementalBreakdown :=
  let tattvaElement := tattvaToElement tattva
  let planetaryHourElement := getPlanetaryHourElement hourRuler
  let eventBuffs := events.foldl (applyEventBuff2 dateMillis) zeroBuffs
  let activeCount := (events.filter (isHappening dateMillis)).length
  let eventEntries : List ElementalBreakdown :=
    if 0 < activeCount then
      [⟨.AstrologicalEvents, 0, eventBuffs.fire, eventBuffs.earth,
        eventBuffs.air, eventBuffs.water, 0⟩]
    else []
  let positionBuffs := dignities.foldl positionStep zeroBuffs
  let latBuffs := latitudeBuffs |latitudeRaw|
  let season := getSeason month latitudeRaw
  let seasonBuffs := seasonBuffsOf season
  let weatherEntries : List ElementalBreakdown :=
    match weather with
    | none => []
    | some w =>
      let wb := applyWeatherBuff zeroBuffs (some w)
      [⟨.Weather, 0, wb.fire, wb.earth, wb.air, wb.water, 0⟩]
  eventEntries ++
  [⟨.PlanetaryPositions, 0, positionBuffs.fire, positionBuffs.earth,
    positionBuffs.air, positionBuffs.water, 0⟩,
   ⟨.Tattva, 0, (if tattvaElement = .Fire then 15 else 0),
    (if tattvaElement = .Earth then 15 else 0),
    (if tattvaElement = .Air then 15 else 0),
    (if tattvaElement = .Water then 15 else 0), 0⟩,
   ⟨.PlanetaryHour, 0, (if planetaryHourElement = .Fire then 11 else 0),
    (if planetaryHourElement = .Earth then 11 else 0),
    (if planetaryHourElement = .Air then 11 else 0),
    (if planetaryHourElement = .Water then 11 else 0), 0⟩,
   ⟨.BasePercentages, 0, 50, 50, 60, 50, 0⟩,
   ⟨.Constants, 0, 5, 12, 10, 5, 0⟩,
   ⟨.Latitude, 0, latBuffs.1, 0, 0, latBuffs.2, 0⟩,
   ⟨.TimeOfDay, 0, (if 9 ≤ hour.val ∧ hour.val < 16 then (14 : ℚ) else 0),
    0, 0, (if 20 ≤ hour.val ∨ hour.val < 3 then (14 : ℚ) else 0), 0⟩,
   ⟨.Season, 0, seasonBuffs.fire, seasonBuffs.earth, seasonBuffs.air,
    seasonBuffs.water, 0⟩] ++
  weatherEntries ++
  [⟨.Akasha, 0, 0, 0, 0, 0, akasha⟩]

/-- `calculateElementalProfile` of the source.  Arguments:
`hour = date.getHours()`, `month = date.getMonth()`,
`dateMillis = date.getTime()`, `latitudeRaw = location.latitude`, the
optional weather category, the caller-supplied event list, the seven body
placements from `getAllPlanetaryDignities`, and the tattva and
planetary-hour ruler computed by `getTattva` and `getPlanetaryHour`. -/
def calculateElementalProfile (hour : Fin 24) (month : Fin 12)
    (dateMillis latitudeRaw : ℚ) (weather : Option WeatherKind)
    (events : List UpcomingEvent) (dignities : List PlacedDignity)
    (tattva : Tattva) (hourRuler : Planet) : ElementalProfile :=
  let moonSign := (dignities.find? (fun d => d.planet = .Moon)).map (·.sign)
  let buffs := profileBuffs hour month dateMillis latitudeRaw weather events
    dignities tattva hourRuler
  let akasha := profileAkasha dateMillis events dignities tattva hourRuler
    buffs
  { fire := max 0 (basePercentages.fire + buffs.fire),
    earth := max 0 (basePercentages.earth + buffs.earth),
    air := max 0 (basePercentages.air + buffs.air),
    water := max 0 (basePercentages.water + buffs.water),
    spirit := akasha,
    planetaryHour := hourRuler,
    tattva := tattva,
    moonSign := moonSign,
    breakdown := profileBreakdown hour month dateMillis latitudeRaw weather
      events dignities tattva hourRuler akasha }

/-- Sum of the `fire` deltas of a breakdown list. -/
def sumFire (l : List ElementalBreakdown) : ℚ := (l.map (·.fire)).sum

/-- Sum of the `earth` deltas of a breakdown list. -/
def sumEarth (l : List ElementalBreakdown) : ℚ := (l.map (·.earth)).sum

/-- Sum of the `air` deltas of a breakdown list. -/
def sumAir (l : List ElementalBreakdown) : ℚ := (l.map (·.air)).sum

/-- Sum of the `water` deltas of a breakdown list. -/
def sumWater (l : List ElementalBreakdown) : ℚ := (l.map (·.water)).sum

/-! ### Concrete fixtures -/

/-- A non-retrograde placement fixture for concrete test inputs. -/
def mkPlacement (p : Planet) (s : ZodiacSign) (dg : Dignity) (sc : ℤ)
    (lon : ℚ) : PlacedDignity :=
  ⟨⟨p, s, dg, sc, false⟩, lon⟩

/-- Three bodies at exactly 0°, 120° and 240° (signs Aries, Leo and
Sagittarius). -/
def alignTriple : List PlacedDignity :=
  [mkPlacement .Sun .Aries .Exaltation 4 0,
   mkPlacement .Moon .Leo .Neutral 0 120,
   mkPlacement .Venus .Sagittarius .Neutral 0 240]

/-- Two bodies at exactly 0° and 0.001°. -/
def alignPairClose : List PlacedDignity :=
  [mkPlacement .Sun .Aries .Exaltation 4 0,
   mkPlacement .Moon .Aries .Neutral 0 (1 / 1000)]

/-- Two bodies exactly 180° apart. -/
def alignPairOpposite : List PlacedDignity :=
  [mkPlacement .Sun .Aries .Exaltation 4 0,
   mkPlacement .Moon .Libra .Neutral 0 180]

/-- A seven-body placement fixture (longitudes 10° through 190°, signs and
dignities consistent with the tables, none retrograde). -/
def sampleDignities : List PlacedDignity :=
  [mkPlacement .Sun .Aries .Exaltation 4 10,
   mkPlacement .Moon .Taurus .Exaltation 4 40,
   mkPlacement .Mercury .Gemini .Domicile 5 70,
   mkPlacement .Venus .Cancer .Neutral 0 100,
   mkPlacement .Mars .Leo .Neutral 0 130,
   mkPlacement .Jupiter .Virgo .Detriment (-5) 160,
   mkPlacement .Saturn .Libra .Exaltation 4 190]

/-- A concrete full-profile input: noon, January, epoch instant 0, equator,
no weather, no events, the seven-body fixture, earth tattva, Saturn hour. -/
def sampleProfile : ElementalProfile :=
  calculateElementalProfile 12 0 0 0 none [] sampleDignities .Prithvi .Saturn

/-! ## Theorems -/

/-- Claim C2: for every one of the seven bodies, every one of the 12 signs
and both retrograde flags, `calculateDignityScore` returns a score in
[-10, 10] and a classification that is one of Domicile, Exaltation,
Detriment, Fall, Neutral; the score equals the classification's base score
(Domicile +5, Exaltation +4, Detriment -5, Fall -4, Neutral 0) plus a -2
penalty when retrograde, clamped to [-10, 10]. -/
theorem calculateDignityScore_spec :
    ∀ (p : Planet) (s : ZodiacSign) (r : Bool),
      (-10 ≤ (calculateDignityScore p s r).score ∧
        (calculateDignityScore p s r).score ≤ 10) ∧
      ((calculateDignityScore p s r).dignity = .Domicile ∨
        (calculateDignityScore p s r).dignity = .Exaltation ∨
        (calculateDignityScore p s r).dignity = .Detriment ∨
        (calculateDignityScore p s r).dignity = .Fall ∨
        (calculateDignityScore p s r).dignity = .Neutral) ∧
      (calculateDignityScore p s r).score =
        max (-10) (min 10
          (dignityBaseScore (calculateDignityScore p s r).dignity +
            (if r then -2 else 0))) := by
  decide

/-- Claim C3 counterexample: the dignity categories of Mercury are not
pairwise disjoint — Virgo is simultaneously a domicile sign and the
exaltation sign of Mercury, so the claimed disjointness fails. -/
theorem mercury_categories_not_disjoint :
    ¬ categoriesDisjoint Planet.Mercury := by
  decide

/-- Claim C3 (amended): for every body other than Mercury the four dignity
category sets are pairwise disjoint; Mercury's table lists Virgo as both a
domicile and the exaltation sign, and Pisces as both a detriment and the
fall sign (the evaluation order of `calculateDignityScore` resolves the
overlap deterministically). -/
theorem categoriesDisjoint_except_mercury :
    (∀ p : Planet, p ≠ Planet.Mercury → categoriesDisjoint p) ∧
    (ZodiacSign.Virgo ∈ (PLANETARY_DIGNITIES .Mercury).domiciles ∧
      ZodiacSign.Virgo = (PLANETARY_DIGNITIES .Mercury).exaltation ∧
      ZodiacSign.Pisces ∈ (PLANETARY_DIGNITIES .Mercury).detriment ∧
      ZodiacSign.Pisces = (PLANETARY_DIGNITIES .Mercury).fall) := by
  decide

/-- Witness for `categoriesDisjoint_except_mercury`, instantiated at the
Sun. -/
theorem categoriesDisjoint_except_mercury_witness :
    Planet.Sun ≠ Planet.Mercury ∧ categoriesDisjoint Planet.Sun :=
  ⟨by decide, categoriesDisjoint_except_mercury.1 Planet.Sun (by decide)⟩

/-- `getHourRuler` and `getDayRuler` depend only on the weekday and hour
fields of the date, so the walking property can be checked by finite
enumeration. -/
theorem getHourRuler_fin (w : Fin 7) (h : Fin 24) (m : Fin 12) (ms : ℚ) :
    getHourRuler ⟨w, h, m, ms⟩ =
      chaldeanNext^[h.val] (getDayRuler ⟨w, h, m, ms⟩) := by
  have h1 : getHourRuler ⟨w, h, m, ms⟩ = getHourRuler ⟨w, h, 0, 0⟩ := rfl
  have h2 : getDayRuler ⟨w, h, m, ms⟩ = getDayRuler ⟨w, h, 0, 0⟩ := rfl
  rw [h1, h2]
  clear h1 h2
  revert w h
  decide

/-- Claim C4: for every date, the simplified fallback `getHourRuler` returns
the planet reached by walking `getHours()` steps forward through the
Chaldean order from the date's day ruler, wrapping modulo 7. -/
theorem getHourRuler_walks_chaldean :
    ∀ d : LocalDate,
      getHourRuler d = chaldeanNext^[d.hours.val] (getDayRuler d) := by
  intro d
  obtain ⟨w, h, m, ms⟩ := d
  exact getHourRuler_fin w h m ms

/-- Claim C6: three bodies at exactly 0°, 120°, 240° yield exactly one
alignment, a Linear one (in particular no Stellium); two bodies at 0° and
0.001° yield exactly a Conjunction of strength 100 (the rounded value of
`100 * (1 - separation / 8)`); two bodies exactly 180° apart yield exactly
an Opposition of strength 100. -/
theorem detectAlignments_scenarios :
    ((∀ a ∈ detectAlignments alignTriple, a.type ≠ .Stellium) ∧
      (∃ a ∈ detectAlignments alignTriple, a.type = .Linear)) ∧
    (detectAlignments alignPairClose =
      [⟨[.Sun, .Moon], .Conjunction, 100⟩] ∧
      jround (100 * (1 - (1 / 1000) / 8)) = 100) ∧
    detectAlignments alignPairOpposite =
      [⟨[.Sun, .Moon], .Opposition, 100⟩] := by
  have hn0 : normalize360 0 = 0 := by norm_num [normalize360, jsRem, jtrunc]
  have hn120 : normalize360 120 = 120 := by
    norm_num [normalize360, jsRem, jtrunc]
  have hn240 : normalize360 240 = 240 := by
    norm_num [normalize360, jsRem, jtrunc]
  have had1 : angularDistance 0 120 = 120 := by norm_num [angularDistance]
  have had2 : angularDistance 0 240 = 120 := by norm_num [angularDistance]
  have had3 : angularDistance 120 240 = 120 := by norm_num [angularDistance]
  have hs3 : sort3 0 120 240 = (0, 120, 240) := by norm_num [sort3]
  have h1 : detectAlignments alignTriple =
      [⟨[.Sun, .Moon, .Venus], .Linear, 75⟩] := by
    norm_num +decide [detectAlignments, alignTriple, mkPlacement, loopPairs,
      loopTriples, signsInOrder, had1, had2, had3, hn0, hn120, hn240, hs3,
      List.filterMap_cons, List.filterMap_nil, List.filter_cons,
      List.filter_nil]
  have had4 : angularDistance 0 (1 / 1000) = 1 / 1000 := by
    norm_num [angularDistance, abs_of_nonneg]
  have habs3 : |(179999 : ℚ) / 1000| = 179999 / 1000 := by norm_num
  have h2 : detectAlignments alignPairClose =
      [⟨[.Sun, .Moon], .Conjunction, 100⟩] := by
    norm_num +decide [detectAlignments, alignPairClose, mkPlacement,
      loopPairs, loopTriples, signsInOrder, had4, habs3, jround,
      List.filterMap_cons, List.filterMap_nil, List.filter_cons,
      List.filter_nil]
  have had5 : angularDistance 0 180 = 180 := by norm_num [angularDistance]
  have h3 : detectAlignments alignPairOpposite =
      [⟨[.Sun, .Moon], .Opposition, 100⟩] := by
    norm_num +decide [detectAlignments, alignPairOpposite, mkPlacement,
      loopPairs, loopTriples, signsInOrder, had5, jround,
      List.filterMap_cons, List.filterMap_nil, List.filter_cons,
      List.filter_nil]
  refine ⟨⟨?_, ?_⟩, ⟨h2, by norm_num [jround]⟩, h3⟩
  · rw [h1]; decide
  · rw [h1]; decide


/-- Claim C10: for every instant strictly earlier than the supplied sunrise,
`getTattva` returns Akasha: the minutes-since-sunrise value is negative, the
JavaScript remainder modulo 120 is then nonpositive, and every such cycle
position falls into the first (Akasha) bucket. -/
theorem getTattva_before_sunrise :
    ∀ currentTimeMillis sunriseMillis : ℚ,
      currentTimeMillis < sunriseMillis →
      getTattva currentTimeMillis sunriseMillis = Tattva.Akasha := by
  intro t s hts
  simp only [getTattva]
  set m := (t - s) / (1000 * 60) with hmdef
  have hm : m < 0 := by
    rw [hmdef]
    apply div_neg_of_neg_of_pos (by linarith) (by norm_num)
  have hq : m / 120 < 0 := div_neg_of_neg_of_pos hm (by norm_num)
  have hcyc : jsRem m 120 < 24 := by
    unfold jsRem jtrunc
    rw [if_pos hq]
    have hf : (⌊-(m / 120)⌋ : ℚ) ≤ -(m / 120) := Int.floor_le _
    push_cast
    nlinarith
  rw [if_pos hcyc]

/-- Witness for `getTattva_before_sunrise` one minute before sunrise. -/
theorem getTattva_before_sunrise_witness :
    (0 : ℚ) < 60000 ∧ getTattva 0 60000 = Tattva.Akasha :=
  ⟨by norm_num, getTattva_before_sunrise 0 60000 (by norm_num)⟩

/-- The normalization idiom computes the mathematical floor-modulus:
`normalize360 a = 360 * fract (a / 360)`. -/
theorem normalize360_eq_fract (a : ℚ) :
    normalize360 a = 360 * Int.fract (a / 360) := by
  have ha : a = 360 * (a / 360) := by field_simp
  simp only [normalize360, jsRem, jtrunc]
  set q := a / 360 with hqdef
  have hfr : Int.fract q = q - ⌊q⌋ := (Int.self_sub_floor q).symm
  by_cases hq : q < 0
  · rw [if_pos hq]
    by_cases hz : Int.fract q = 0
    · have hfl : (⌊q⌋ : ℚ) = q := by
        rw [hz] at hfr; linarith
      have hnegfl : ⌊-q⌋ = -⌊q⌋ := by
        rw [show -q = ((-⌊q⌋ : ℤ) : ℚ) by push_cast; linarith]
        exact Int.floor_intCast _
      rw [hnegfl]
      have hr0 : a - 360 * ((-(-⌊q⌋) : ℤ) : ℚ) = 0 := by
        push_cast
        nlinarith [hfl, ha]
      rw [hr0, hz]
      norm_num
    · have h1 : 0 < Int.fract q :=
        lt_of_le_of_ne (Int.fract_nonneg q) (Ne.symm hz)
      have h2 : Int.fract q < 1 := Int.fract_lt_one q
      have hneg : ⌊-q⌋ = -⌊q⌋ - 1 := by
        rw [Int.floor_eq_iff]
        constructor
        · push_cast
          linarith
        · push_cast
          linarith
      rw [hneg]
      have hrlt : a - 360 * ((-(-⌊q⌋ - 1) : ℤ) : ℚ) < 0 := by
        push_cast
        nlinarith [ha, h2, hfr]
      rw [if_pos hrlt]
      push_cast
      linarith
  · rw [if_neg hq]
    have h0 : 0 ≤ Int.fract q := Int.fract_nonneg q
    have hge : ¬(a - 360 * ((⌊q⌋ : ℤ) : ℚ) < 0) := by
      nlinarith [ha, h0, hfr]
    rw [if_neg hge]
    linarith

/-- `normalize360` lands in `[0, 360)`. -/
theorem normalize360_nonneg (a : ℚ) : 0 ≤ normalize360 a := by
  rw [normalize360_eq_fract]
  have := Int.fract_nonneg (a / 360)
  linarith

/-- `normalize360` lands in `[0, 360)`. -/
theorem normalize360_lt_360 (a : ℚ) : normalize360 a < 360 := by
  rw [normalize360_eq_fract]
  have := Int.fract_lt_one (a / 360)
  linarith

/-- `normalize360` is invariant under full turns. -/
theorem normalize360_periodic (a : ℚ) (k : ℤ) :
    normalize360 (a + 360 * k) = normalize360 a := by
  rw [normalize360_eq_fract, normalize360_eq_fract]
  have h : (a + 360 * k) / 360 = a / 360 + k := by
    field_simp
    ring
  rw [h, Int.fract_add_int]

/-- Claim C9: `longitudeToSign` is total — it returns one of the 12 signs
for every rational longitude, with no failure mode — and periodic with
period 360, including negative longitudes. -/
theorem longitudeToSign_total_periodic :
    ∀ (lon : ℚ) (k : ℤ),
      (∃ s, longitudeToSign lon = some s) ∧
      longitudeToSign (lon + 360 * k) = longitudeToSign lon := by
  intro lon k
  constructor
  · have h0 : 0 ≤ normalize360 lon := normalize360_nonneg lon
    have h1 : normalize360 lon < 360 := normalize360_lt_360 lon
    have hn : ⌊normalize360 lon / 30⌋ < 12 := by
      apply Int.floor_lt.mpr
      push_cast
      linarith
    have hn0 : (0 : ℤ) ≤ ⌊normalize360 lon / 30⌋ :=
      Int.floor_nonneg.mpr (by positivity)
    have hlt : (⌊normalize360 lon / 30⌋).toNat < ZODIAC_SIGNS.length := by
      have hlen : ZODIAC_SIGNS.length = 12 := rfl
      rw [hlen]
      omega
    refine ⟨ZODIAC_SIGNS.get ⟨_, hlt⟩, ?_⟩
    simp only [longitudeToSign]
    exact List.get?_eq_get hlt
  · simp only [longitudeToSign]
    rw [normalize360_periodic]

/-- Every extracted house cusp is nonnegative (either a normalized adapter
cusp or the fallback `(i - 1) * 30` with `i` between 1 and 12). -/
theorem extractHouses_nonneg (cusps : List (Option ℚ)) :
    ∀ x ∈ extractHouses cusps, 0 ≤ x := by
  intro x hx
  simp only [extractHouses, List.mem_map] at hx
  obtain ⟨i, hi, rfl⟩ := hx
  unfold extractHouse
  split
  · exact normalize360_nonneg _
  · fin_cases hi <;> norm_num

/-- A `getD 0` read of a list of nonnegative rationals is nonnegative. -/
theorem getD_nonneg (l : List ℚ) (hl : ∀ y ∈ l, 0 ≤ y) (n : ℕ) :
    0 ≤ l.getD n 0 := by
  rw [List.getD_eq_getD_get?]
  rcases h : l.get? n with _ | y
  · simp
  · simpa using hl y (List.get?_mem h)

/-- The Ascendant returned by `calculateHouseCusps` is nonnegative. -/
theorem calculateHouseCusps_ascendant_nonneg (cusps ascmc : List (Option ℚ)) :
    0 ≤ (calculateHouseCusps cusps ascmc).ascendant := by
  simp only [calculateHouseCusps]
  split
  · exact normalize360_nonneg _
  · exact getD_nonneg _ (extractHouses_nonneg cusps) 0

/-- The MC returned by `calculateHouseCusps` is nonnegative. -/
theorem calculateHouseCusps_mc_nonneg (cusps ascmc : List (Option ℚ)) :
    0 ≤ (calculateHouseCusps cusps ascmc).mc := by
  simp only [calculateHouseCusps]
  split
  · exact normalize360_nonneg _
  · exact getD_nonneg _ (extractHouses_nonneg cusps) 9

/-- On nonnegative arguments the JavaScript remainder by 360 agrees with the
mathematical floor-modulus. -/
theorem jsRem_eq_qmod360 (x : ℚ) (hx : 0 ≤ x) :
    jsRem (x + 180) 360 = qmod360 (x + 180) := by
  unfold jsRem jtrunc qmod360
  rw [if_neg (not_lt.mpr (by positivity))]

/-- Claim C7: for every adapter output (including every degraded fallback),
the IC equals `(MC + 180) mod 360` and the Descendant equals
`(Ascendant + 180) mod 360` exactly, with the mathematical modulus into
[0, 360); the two points are derived, never independently read. -/
theorem houseCusps_ic_descendant_invariant :
    ∀ cusps ascmc : List (Option ℚ),
      (calculateHouseCusps cusps ascmc).ic =
        qmod360 ((calculateHouseCusps cusps ascmc).mc + 180) ∧
      (calculateHouseCusps cusps ascmc).descendant =
        qmod360 ((calculateHouseCusps cusps ascmc).ascendant + 180) := by
  intro cusps ascmc
  constructor
  · exact jsRem_eq_qmod360 _ (calculateHouseCusps_mc_nonneg cusps ascmc)
  · exact jsRem_eq_qmod360 _ (calculateHouseCusps_ascendant_nonneg cusps ascmc)

/-- Claim C5 counterexample: with adapter cusps entirely invalid but a valid
Ascendant of 75°, the fallback houses are 0°, 30°, ..., 330° — evenly
spaced, but anchored at 0° Aries, not at the 75° Ascendant. -/
theorem houseCusps_fallback_not_anchored :
    (calculateHouseCusps [] [some 75, some 200]).houses =
      [0, 30, 60, 90, 120, 150, 180, 210, 240, 270, 300, 330] ∧
    (calculateHouseCusps [] [some 75, some 200]).ascendant = 75 ∧
    (calculateHouseCusps [] [some 75, some 200]).houses.getD 0 0 ≠
      (calculateHouseCusps [] [some 75, some 200]).ascendant := by
  norm_num [calculateHouseCusps, extractHouses, extractHouse, normalize360,
    jsRem, jtrunc]

/-- Claim C5 (amended): when the adapter yields no valid cusps the result is
the 12 evenly-spaced cusps 0°, 30°, ..., 330° anchored at 0° Aries, and the
Ascendant coincides with the first fallback cusp only when the adapter's
Ascendant output is itself invalid (in which case it is 0). -/
theorem houseCusps_fallback_spec :
    ∀ cusps ascmc : List (Option ℚ),
      (∀ i, cusps.get? i = none ∨ cusps.get? i = some none) →
      (calculateHouseCusps cusps ascmc).houses =
        [0, 30, 60, 90, 120, 150, 180, 210, 240, 270, 300, 330] ∧
      ((ascmc.get? 0 = none ∨ ascmc.get? 0 = some none) →
        (calculateHouseCusps cusps ascmc).ascendant = 0) := by
  intro cusps ascmc hinv
  have hx : ∀ i : ℕ, extractHouse cusps i = ((i : ℚ) - 1) * 30 := by
    intro i
    unfold extractHouse
    rcases hinv i with h | h <;> rw [h]
  have hh : extractHouses cusps =
      [0, 30, 60, 90, 120, 150, 180, 210, 240, 270, 300, 330] := by
    norm_num [extractHouses, hx]
  constructor
  · simpa only [calculateHouseCusps] using hh
  · intro h0
    simp only [calculateHouseCusps]
    rcases h0 with h | h <;> rw [h] <;> rw [hh] <;> rfl

/-- Witness for `houseCusps_fallback_spec` with empty adapter arrays. -/
theorem houseCusps_fallback_spec_witness :
    (∀ i, ([] : List (Option ℚ)).get? i = none ∨
      ([] : List (Option ℚ)).get? i = some none) ∧
    ((calculateHouseCusps [] []).houses =
      [0, 30, 60, 90, 120, 150, 180, 210, 240, 270, 300, 330] ∧
    ((([] : List (Option ℚ)).get? 0 = none ∨
      ([] : List (Option ℚ)).get? 0 = some none) →
      (calculateHouseCusps [] []).ascendant = 0)) :=
  ⟨fun _ => Or.inl rfl,
    houseCusps_fallback_spec [] [] (fun _ => Or.inl rfl)⟩

/-- Claim C8: an elongation of exactly 0° (Sun and Moon at the same
longitude) yields phase New Moon with illumination 0% and age 0 days, and
an elongation of exactly 180° yields phase Full Moon with illumination
100%, under the formulas illumination = (1 - cos)/2*100 and
age = elongation/360 * 29.53058867. -/
theorem getMoonPhase_new_full :
    (getMoonPhase 0 0).phase = MoonPhase.NewMoon ∧
    (getMoonPhase 0 0).illumination = 0 ∧
    (getMoonPhase 0 0).age = 0 ∧
    (getMoonPhase 0 180).phase = MoonPhase.FullMoon ∧
    (getMoonPhase 0 180).illumination = 100 := by
  have hpi : (180 : ℝ) * Real.pi / 180 = Real.pi := by ring
  simp only [getMoonPhase]
  norm_num [hpi, Real.cos_zero, Real.cos_pi, jroundR]

/-- Pointwise decomposition of `bAdd` projections. -/
theorem bAdd_fire (b c : ElementBuffs) : (bAdd b c).fire = b.fire + c.fire := rfl

theorem bAdd_earth (b c : ElementBuffs) : (bAdd b c).earth = b.earth + c.earth := rfl

theorem bAdd_air (b c : ElementBuffs) : (bAdd b c).air = b.air + c.air := rfl

theorem bAdd_water (b c : ElementBuffs) : (bAdd b c).water = b.water + c.water := rfl

/-- The conditional tattva/hour buff step decomposes additively into a
per-element indicator record. -/
theorem condAddBuff_eq_bAdd (b : ElementBuffs) (el : Element) (q : ℚ) :
    (if el ≠ Element.Spirit then addBuff b el q else b) =
      bAdd b ⟨(if el = Element.Fire then q else 0),
        (if el = Element.Earth then q else 0),
        (if el = Element.Air then q else 0),
        (if el = Element.Water then q else 0), 0⟩ := by
  cases el <;> simp [addBuff, bAdd]

/-- A position step decomposes additively. -/
theorem positionStep_eq_bAdd (b : ElementBuffs) (d : PlacedDignity) :
    positionStep b d = bAdd b (positionStep zeroBuffs d) := by
  unfold positionStep
  generalize SIGN_ELEMENTS d.sign = el
  cases el <;> simp [addBuff, bAdd, zeroBuffs]

/-- An element-buff event step of the buff pass decomposes additively. -/
theorem applyEventBuff1_eq_bAdd (dm : ℚ) (b : ElementBuffs)
    (e : UpcomingEvent) :
    applyEventBuff1 dm b e = bAdd b (applyEventBuff1 dm zeroBuffs e) := by
  obtain ⟨ty, c, so, lu, su, wi, dt⟩ := e
  by_cases h : isHappening dm ⟨ty, c, so, lu, su, wi, dt⟩ <;>
    cases ty <;> cases c <;> cases so <;> cases lu <;> cases su <;>
      cases wi <;> simp [applyEventBuff1, h, bAdd, zeroBuffs] <;> ring_nf

/-- An element-buff event step of the breakdown pass decomposes
additively. -/
theorem applyEventBuff2_eq_bAdd (dm : ℚ) (b : ElementBuffs)
    (e : UpcomingEvent) :
    applyEventBuff2 dm b e = bAdd b (applyEventBuff2 dm zeroBuffs e) := by
  obtain ⟨ty, c, so, lu, su, wi, dt⟩ := e
  by_cases h : isHappening dm ⟨ty, c, so, lu, su, wi, dt⟩ <;>
    cases ty <;> cases c <;> cases so <;> cases lu <;> cases su <;>
      cases wi <;> simp [applyEventBuff2, h, bAdd, zeroBuffs] <;> ring_nf

/-- The two event switches agree on events that are not comet-named
planetary alignments (the buff pass is missing exactly that case). -/
theorem applyEventBuff12_agree (dm : ℚ) (b : ElementBuffs)
    (e : UpcomingEvent)
    (h : e.type = EventType.PlanetaryAlignment → e.nameHasComet = false) :
    applyEventBuff1 dm b e = applyEventBuff2 dm b e := by
  obtain ⟨ty, c, so, lu, su, wi, dt⟩ := e
  cases ty <;> simp_all [applyEventBuff1, applyEventBuff2]

/-- An event outside its activity window contributes nothing in the
breakdown event pass. -/
theorem applyEventBuff2_not_happening (dm : ℚ) (b : ElementBuffs)
    (e : UpcomingEvent) (h : isHappening dm e = false) :
    applyEventBuff2 dm b e = b := by
  unfold applyEventBuff2
  simp [h]

/-- The season switch decomposes additively into the breakdown pass's
season record. -/
theorem applySeasonBuff_eq_bAdd (b : ElementBuffs) (s : Season) :
    applySeasonBuff b s = bAdd b (seasonBuffsOf s) := by
  cases s <;> simp [applySeasonBuff, seasonBuffsOf, bAdd, zeroBuffs]

/-- The weather switch decomposes additively. -/
theorem applyWeatherBuff_eq_bAdd (b : ElementBuffs)
    (w : Option WeatherKind) :
    applyWeatherBuff b w = bAdd b (applyWeatherBuff zeroBuffs w) := by
  cases w with
  | none => simp [applyWeatherBuff, bAdd, zeroBuffs]
  | some k => cases k <;> simp [applyWeatherBuff, bAdd, zeroBuffs]

/-- Folding an additively-decomposing step accumulates the per-item
projections. -/
theorem foldl_buff_hom {α : Type} (proj : ElementBuffs → ℚ)
    (step : ElementBuffs → α → ElementBuffs)
    (hstep : ∀ b a, proj (step b a) = proj b + proj (step zeroBuffs a)) :
    ∀ (l : List α) (b : ElementBuffs),
      proj (l.foldl step b) =
        proj b + (l.map fun a => proj (step zeroBuffs a)).sum := by
  intro l
  induction l with
  | nil => intro b; simp
  | cons x xs ih =>
    intro b
    rw [List.foldl_cons, ih (step b x), hstep b x, List.map_cons,
      List.sum_cons]
    ring

/-- The fire component of the buff chain, decomposed per source. -/
theorem profileBuffs_fire (hour : Fin 24) (month : Fin 12)
    (dateMillis latitudeRaw : ℚ) (weather : Option WeatherKind)
    (events : List UpcomingEvent) (dignities : List PlacedDignity)
    (tattva : Tattva) (hourRuler : Planet) :
    (profileBuffs hour month dateMillis latitudeRaw weather events dignities
      tattva hourRuler).fire =
      (dignities.foldl positionStep zeroBuffs).fire +
      (if tattvaToElement tattva = Element.Fire then 15 else 0) +
      (if getPlanetaryHourElement hourRuler = Element.Fire then 11 else 0) +
      5 + (latitudeBuffs |latitudeRaw|).1 +
      (if 9 ≤ hour.val ∧ hour.val < 16 then (14 : ℚ) else 0) +
      (events.map fun e =>
        (applyEventBuff1 dateMillis zeroBuffs e).fire).sum +
      (seasonBuffsOf (getSeason month latitudeRaw)).fire +
      (applyWeatherBuff zeroBuffs weather).fire := by
  have hstep : ∀ b e, (applyEventBuff1 dateMillis b e).fire =
      b.fire + (applyEventBuff1 dateMillis zeroBuffs e).fire := by
    intro b e
    rw [applyEventBuff1_eq_bAdd, bAdd_fire]
  simp only [profileBuffs]
  rw [condAddBuff_eq_bAdd, condAddBuff_eq_bAdd, applyWeatherBuff_eq_bAdd,
    applySeasonBuff_eq_bAdd, bAdd_fire, bAdd_fire,
    foldl_buff_hom ElementBuffs.fire (applyEventBuff1 dateMillis) hstep]
  simp only [apply_ite ElementBuffs.fire, ite_self, bAdd_fire]
  split_ifs <;> ring

/-- The earth component of the buff chain, decomposed per source. -/
theorem profileBuffs_earth (hour : Fin 24) (month : Fin 12)
    (dateMillis latitudeRaw : ℚ) (weather : Option WeatherKind)
    (events : List UpcomingEvent) (dignities : List PlacedDignity)
    (tattva : Tattva) (hourRuler : Planet) :
    (profileBuffs hour month dateMillis latitudeRaw weather events dignities
      tattva hourRuler).earth =
      (dignities.foldl positionStep zeroBuffs).earth +
      (if tattvaToElement tattva = Element.Earth then 15 else 0) +
      (if getPlanetaryHourElement hourRuler = Element.Earth then 11 else 0) +
      12 +
      (events.map fun e =>
        (applyEventBuff1 dateMillis zeroBuffs e).earth).sum +
      (seasonBuffsOf (getSeason month latitudeRaw)).earth +
      (applyWeatherBuff zeroBuffs weather).earth := by
  have hstep : ∀ b e, (applyEventBuff1 dateMillis b e).earth =
      b.earth + (applyEventBuff1 dateMillis zeroBuffs e).earth := by
    intro b e
    rw [applyEventBuff1_eq_bAdd, bAdd_earth]
  simp only [profileBuffs]
  rw [condAddBuff_eq_bAdd, condAddBuff_eq_bAdd, applyWeatherBuff_eq_bAdd,
    applySeasonBuff_eq_bAdd, bAdd_earth, bAdd_earth,
    foldl_buff_hom ElementBuffs.earth (applyEventBuff1 dateMillis) hstep]
  simp only [apply_ite ElementBuffs.earth, ite_self, bAdd_earth]

/-- The air component of the buff chain, decomposed per source. -/
theorem profileBuffs_air (hour : Fin 24) (month : Fin 12)
    (dateMillis latitudeRaw : ℚ) (weather : Option WeatherKind)
    (events : List UpcomingEvent) (dignities : List PlacedDignity)
    (tattva : Tattva) (hourRuler : Planet) :
    (profileBuffs hour month dateMillis latitudeRaw weather events dignities
      tattva hourRuler).air =
      (dignities.foldl positionStep zeroBuffs).air +
      (if tattvaToElement tattva = Element.Air then 15 else 0) +
      (if getPlanetaryHourElement hourRuler = Element.Air then 11 else 0) +
      10 +
      (events.map fun e =>
        (applyEventBuff1 dateMillis zeroBuffs e).air).sum +
      (seasonBuffsOf (getSeason month latitudeRaw)).air +
      (applyWeatherBuff zeroBuffs weather).air := by
  have hstep : ∀ b e, (applyEventBuff1 dateMillis b e).air =
      b.air + (applyEventBuff1 dateMillis zeroBuffs e).air := by
    intro b e
    rw [applyEventBuff1_eq_bAdd, bAdd_air]
  simp only [profileBuffs]
  rw [condAddBuff_eq_bAdd, condAddBuff_eq_bAdd, applyWeatherBuff_eq_bAdd,
    applySeasonBuff_eq_bAdd, bAdd_air, bAdd_air,
    foldl_buff_hom ElementBuffs.air (applyEventBuff1 dateMillis) hstep]
  simp only [apply_ite ElementBuffs.air, ite_self, bAdd_air]

/-- The water component of the buff chain, decomposed per source. -/
theorem profileBuffs_water (hour : Fin 24) (month : Fin 12)
    (dateMillis latitudeRaw : ℚ) (weather : Option WeatherKind)
    (events : List UpcomingEvent) (dignities : List PlacedDignity)
    (tattva : Tattva) (hourRuler : Planet) :
    (profileBuffs hour month dateMillis latitudeRaw weather events dignities
      tattva hourRuler).water =
      (dignities.foldl positionStep zeroBuffs).water +
      (if tattvaToElement tattva = Element.Water then 15 else 0) +
      (if getPlanetaryHourElement hourRuler = Element.Water then 11 else 0) +
      5 + (latitudeBuffs |latitudeRaw|).2 +
      (if 20 ≤ hour.val ∨ hour.val < 3 then (14 : ℚ) else 0) +
      (events.map fun e =>
        (applyEventBuff1 dateMillis zeroBuffs e).water).sum +
      (seasonBuffsOf (getSeason month latitudeRaw)).water +
      (applyWeatherBuff zeroBuffs weather).water := by
  have hstep : ∀ b e, (applyEventBuff1 dateMillis b e).water =
      b.water + (applyEventBuff1 dateMillis zeroBuffs e).water := by
    intro b e
    rw [applyEventBuff1_eq_bAdd, bAdd_water]
  simp only [profileBuffs]
  rw [condAddBuff_eq_bAdd, condAddBuff_eq_bAdd, applyWeatherBuff_eq_bAdd,
    applySeasonBuff_eq_bAdd, bAdd_water, bAdd_water,
    foldl_buff_hom ElementBuffs.water (applyEventBuff1 dateMillis) hstep]
  simp only [apply_ite ElementBuffs.water, ite_self, bAdd_water]
  split_ifs <;> ring

/-- Under the no-comet hypothesis, the fire deltas of the breakdown list sum
to the base fire percentage plus the accumulated fire buffs. -/
theorem sumFire_profileBreakdown (hour : Fin 24) (month : Fin 12)
    (dateMillis latitudeRaw : ℚ) (weather : Option WeatherKind)
    (events : List UpcomingEvent) (dignities : List PlacedDignity)
    (tattva : Tattva) (hourRuler : Planet) (ak : ℚ)
    (hc : ∀ e ∈ events,
      e.type = EventType.PlanetaryAlignment → e.nameHasComet = false) :
    sumFire (profileBreakdown hour month dateMillis latitudeRaw weather
        events dignities tattva hourRuler ak) =
      50 + (profileBuffs hour month dateMillis latitudeRaw weather events
        dignities tattva hourRuler).fire := by
  have hagree : (events.map fun e =>
        (applyEventBuff1 dateMillis zeroBuffs e).fire) =
      events.map fun e => (applyEventBuff2 dateMillis zeroBuffs e).fire := by
    apply List.map_congr_left
    intro e he
    rw [applyEventBuff12_agree dateMillis zeroBuffs e (hc e he)]
  have hev2 : (events.foldl (applyEventBuff2 dateMillis) zeroBuffs).fire =
      (events.map fun e => (applyEventBuff2 dateMillis zeroBuffs e).fire).sum := by
    rw [foldl_buff_hom ElementBuffs.fire (applyEventBuff2 dateMillis)
      (fun b e => by rw [applyEventBuff2_eq_bAdd, bAdd_fire]) events
      zeroBuffs]
    show (0 : ℚ) + _ = _
    ring
  rw [profileBuffs_fire]
  by_cases hac : 0 < (events.filter (isHappening dateMillis)).length
  · simp only [profileBreakdown, sumFire, if_pos hac, List.map_append,
      List.sum_append, List.map_cons, List.sum_cons, List.map_nil,
      List.sum_nil]
    rw [hev2, ← hagree]
    cases weather with
    | none => simp [applyWeatherBuff, zeroBuffs]; ring
    | some w => simp only [List.map_cons, List.sum_cons, List.map_nil,
        List.sum_nil]; ring
  · have hnone : ∀ e ∈ events, isHappening dateMillis e = false := by
      intro e he
      have hnil : events.filter (isHappening dateMillis) = [] :=
        List.length_eq_zero.mp (by omega)
      have := List.filter_eq_nil_iff.mp hnil e he
      simpa using this
    have hm1 : (events.map fun e =>
        (applyEventBuff1 dateMillis zeroBuffs e).fire).sum = 0 := by
      apply List.sum_eq_zero
      intro x hx
      simp only [List.mem_map] at hx
      obtain ⟨e, he, rfl⟩ := hx
      unfold applyEventBuff1
      rw [hnone e he]
      simp [zeroBuffs]
    simp only [profileBreakdown, sumFire, if_neg hac, List.map_append,
      List.sum_append, List.map_cons, List.sum_cons, List.map_nil,
      List.sum_nil]
    rw [hm1]
    cases weather with
    | none => simp [applyWeatherBuff, zeroBuffs]; ring
    | some w => simp only [List.map_cons, List.sum_cons, List.map_nil,
        List.sum_nil]; ring

/-- Under the no-comet hypothesis, the earth deltas of the breakdown list
sum to the base earth percentage plus the accumulated earth buffs. -/
theorem sumEarth_profileBreakdown (hour : Fin 24) (month : Fin 12)
    (dateMillis latitudeRaw : ℚ) (weather : Option WeatherKind)
    (events : List UpcomingEvent) (dignities : List PlacedDignity)
    (tattva : Tattva) (hourRuler : Planet) (ak : ℚ)
    (hc : ∀ e ∈ events,
      e.type = EventType.PlanetaryAlignment → e.nameHasComet = false) :
    sumEarth (profileBreakdown hour month dateMillis latitudeRaw weather
        events dignities tattva hourRuler ak) =
      50 + (profileBuffs hour month dateMillis latitudeRaw weather events
        dignities tattva hourRuler).earth := by
  have hagree : (events.map fun e =>
        (applyEventBuff1 dateMillis zeroBuffs e).earth) =
      events.map fun e => (applyEventBuff2 dateMillis zeroBuffs e).earth := by
    apply List.map_congr_left
    intro e he
    rw [applyEventBuff12_agree dateMillis zeroBuffs e (hc e he)]
  have hev2 : (events.foldl (applyEventBuff2 dateMillis) zeroBuffs).earth =
      (events.map fun e =>
        (applyEventBuff2 dateMillis zeroBuffs e).earth).sum := by
    rw [foldl_buff_hom ElementBuffs.earth (applyEventBuff2 dateMillis)
      (fun b e => by rw [applyEventBuff2_eq_bAdd, bAdd_earth]) events
      zeroBuffs]
    show (0 : ℚ) + _ = _
    ring
  rw [profileBuffs_earth]
  by_cases hac : 0 < (events.filter (isHappening dateMillis)).length
  · simp only [profileBreakdown, sumEarth, if_pos hac, List.map_append,
      List.sum_append, List.map_cons, List.sum_cons, List.map_nil,
      List.sum_nil]
    rw [hev2, ← hagree]
    cases weather with
    | none => simp [applyWeatherBuff, zeroBuffs]; ring
    | some w => simp only [List.map_cons, List.sum_cons, List.map_nil,
        List.sum_nil]; ring
  · have hnone : ∀ e ∈ events, isHappening dateMillis e = false := by
      intro e he
      have hnil : events.filter (isHappening dateMillis) = [] :=
        List.length_eq_zero.mp (by omega)
      have := List.filter_eq_nil_iff.mp hnil e he
      simpa using this
    have hm1 : (events.map fun e =>
        (applyEventBuff1 dateMillis zeroBuffs e).earth).sum = 0 := by
      apply List.sum_eq_zero
      intro x hx
      simp only [List.mem_map] at hx
      obtain ⟨e, he, rfl⟩ := hx
      unfold applyEventBuff1
      rw [hnone e he]
      simp [zeroBuffs]
    simp only [profileBreakdown, sumEarth, if_neg hac, List.map_append,
      List.sum_append, List.map_cons, List.sum_cons, List.map_nil,
      List.sum_nil]
    rw [hm1]
    cases weather with
    | none => simp [applyWeatherBuff, zeroBuffs]; ring
    | some w => simp only [List.map_cons, List.sum_cons, List.map_nil,
        List.sum_nil]; ring

/-- Under the no-comet hypothesis, the air deltas of the breakdown list
sum to the base air percentage plus the accumulated air buffs. -/
theorem sumAir_profileBreakdown (hour : Fin 24) (month : Fin 12)
    (dateMillis latitudeRaw : ℚ) (weather : Option WeatherKind)
    (events : List UpcomingEvent) (dignities : List PlacedDignity)
    (tattva : Tattva) (hourRuler : Planet) (ak : ℚ)
    (hc : ∀ e ∈ events,
      e.type = EventType.PlanetaryAlignment → e.nameHasComet = false) :
    sumAir (profileBreakdown hour month dateMillis latitudeRaw weather
        events dignities tattva hourRuler ak) =
      60 + (profileBuffs hour month dateMillis latitudeRaw weather events
        dignities tattva hourRuler).air := by
  have hagree : (events.map fun e =>
        (applyEventBuff1 dateMillis zeroBuffs e).air) =
      events.map fun e => (applyEventBuff2 dateMillis zeroBuffs e).air := by
    apply List.map_congr_left
    intro e he
    rw [applyEventBuff12_agree dateMillis zeroBuffs e (hc e he)]
  have hev2 : (events.foldl (applyEventBuff2 dateMillis) zeroBuffs).air =
      (events.map fun e =>
        (applyEventBuff2 dateMillis zeroBuffs e).air).sum := by
    rw [foldl_buff_hom ElementBuffs.air (applyEventBuff2 dateMillis)
      (fun b e => by rw [applyEventBuff2_eq_bAdd, bAdd_air]) events
      zeroBuffs]
    show (0 : ℚ) + _ = _
    ring
  rw [profileBuffs_air]
  by_cases hac : 0 < (events.filter (isHappening dateMillis)).length
  · simp only [profileBreakdown, sumAir, if_pos hac, List.map_append,
      List.sum_append, List.map_cons, List.sum_cons, List.map_nil,
      List.sum_nil]
    rw [hev2, ← hagree]
    cases weather with
    | none => simp [applyWeatherBuff, zeroBuffs]; ring
    | some w => simp only [List.map_cons, List.sum_cons, List.map_nil,
        List.sum_nil]; ring
  · have hnone : ∀ e ∈ events, isHappening dateMillis e = false := by
      intro e he
      have hnil : events.filter (isHappening dateMillis) = [] :=
        List.length_eq_zero.mp (by omega)
      have := List.filter_eq_nil_iff.mp hnil e he
      simpa using this
    have hm1 : (events.map fun e =>
        (applyEventBuff1 dateMillis zeroBuffs e).air).sum = 0 := by
      apply List.sum_eq_zero
      intro x hx
      simp only [List.mem_map] at hx
      obtain ⟨e, he, rfl⟩ := hx
      unfold applyEventBuff1
      rw [hnone e he]
      simp [zeroBuffs]
    simp only [profileBreakdown, sumAir, if_neg hac, List.map_append,
      List.sum_append, List.map_cons, List.sum_cons, List.map_nil,
      List.sum_nil]
    rw [hm1]
    cases weather with
    | none => simp [applyWeatherBuff, zeroBuffs]; ring
    | some w => simp only [List.map_cons, List.sum_cons, List.map_nil,
        List.sum_nil]; ring

/-- Under the no-comet hypothesis, the water deltas of the breakdown list
sum to the base water percentage plus the accumulated water buffs. -/
theorem sumWater_profileBreakdown (hour : Fin 24) (month : Fin 12)
    (dateMillis latitudeRaw : ℚ) (weather : Option WeatherKind)
    (events : List UpcomingEvent) (dignities : List PlacedDignity)
    (tattva : Tattva) (hourRuler : Planet) (ak : ℚ)
    (hc : ∀ e ∈ events,
      e.type = EventType.PlanetaryAlignment → e.nameHasComet = false) :
    sumWater (profileBreakdown hour month dateMillis latitudeRaw weather
        events dignities tattva hourRuler ak) =
      50 + (profileBuffs hour month dateMillis latitudeRaw weather events
        dignities tattva hourRuler).water := by
  have hagree : (events.map fun e =>
        (applyEventBuff1 dateMillis zeroBuffs e).water) =
      events.map fun e => (applyEventBuff2 dateMillis zeroBuffs e).water := by
    apply List.map_congr_left
    intro e he
    rw [applyEventBuff12_agree dateMillis zeroBuffs e (hc e he)]
  have hev2 : (events.foldl (applyEventBuff2 dateMillis) zeroBuffs).water =
      (events.map fun e =>
        (applyEventBuff2 dateMillis zeroBuffs e).water).sum := by
    rw [foldl_buff_hom ElementBuffs.water (applyEventBuff2 dateMillis)
      (fun b e => by rw [applyEventBuff2_eq_bAdd, bAdd_water]) events
      zeroBuffs]
    show (0 : ℚ) + _ = _
    ring
  rw [profileBuffs_water]
  by_cases hac : 0 < (events.filter (isHappening dateMillis)).length
  · simp only [profileBreakdown, sumWater, if_pos hac, List.map_append,
      List.sum_append, List.map_cons, List.sum_cons, List.map_nil,
      List.sum_nil]
    rw [hev2, ← hagree]
    cases weather with
    | none => simp [applyWeatherBuff, zeroBuffs]; ring
    | some w => simp only [List.map_cons, List.sum_cons, List.map_nil,
        List.sum_nil]; ring
  · have hnone : ∀ e ∈ events, isHappening dateMillis e = false := by
      intro e he
      have hnil : events.filter (isHappening dateMillis) = [] :=
        List.length_eq_zero.mp (by omega)
      have := List.filter_eq_nil_iff.mp hnil e he
      simpa using this
    have hm1 : (events.map fun e =>
        (applyEventBuff1 dateMillis zeroBuffs e).water).sum = 0 := by
      apply List.sum_eq_zero
      intro x hx
      simp only [List.mem_map] at hx
      obtain ⟨e, he, rfl⟩ := hx
      unfold applyEventBuff1
      rw [hnone e he]
      simp [zeroBuffs]
    simp only [profileBreakdown, sumWater, if_neg hac, List.map_append,
      List.sum_append, List.map_cons, List.sum_cons, List.map_nil,
      List.sum_nil]
    rw [hm1]
    cases weather with
    | none => simp [applyWeatherBuff, zeroBuffs]; ring
    | some w => simp only [List.map_cons, List.sum_cons, List.map_nil,
        List.sum_nil]; ring

/-- Claim C1 counterexample: at a concrete valid input (noon at the equator
in January, no weather, no events, a seven-body placement, earth tattva,
Saturn hour) the sum of the breakdown entries' fire deltas plus the
documented base percentage does NOT equal the profile's final fire value:
the breakdown list already contains the Base Percentages entry, so the
claimed equation double-counts the base. -/
theorem elementalProfile_claim_counterexample :
    ¬ (sumFire sampleProfile.breakdown + 50 = sampleProfile.fire ∧
       sumEarth sampleProfile.breakdown + 50 = sampleProfile.earth ∧
       sumAir sampleProfile.breakdown + 60 = sampleProfile.air ∧
       sumWater sampleProfile.breakdown + 50 = sampleProfile.water) := by
  intro h
  obtain ⟨h1, -, -, -⟩ := h
  have hb : profileBuffs 12 0 0 0 none [] sampleDignities .Prithvi
      .Saturn = ⟨157/2, 53, 22, 7, 0⟩ := by
    norm_num +decide [profileBuffs, positionStep, addBuff, SIGN_ELEMENTS,
      positionWeight, sampleDignities, mkPlacement, tattvaToElement,
      getPlanetaryHourElement, latitudeBuffs, applySeasonBuff, getSeason,
      applyWeatherBuff, zeroBuffs]
  have hfire : sampleProfile.fire = 257/2 := by
    simp only [sampleProfile, calculateElementalProfile, hb, basePercentages]
    norm_num
  have hsum : sumFire sampleProfile.breakdown = 257/2 := by
    have heq : sumFire sampleProfile.breakdown =
        50 + (profileBuffs 12 0 0 0 none [] sampleDignities .Prithvi
          .Saturn).fire := by
      simp only [sampleProfile, calculateElementalProfile]
      exact sumFire_profileBreakdown _ _ _ _ _ _ _ _ _ _ (by simp)
    rw [heq, hb]
    norm_num
  rw [hsum, hfire] at h1
  norm_num at h1

/-- Claim C1 (amended): for every input whose active events include no
comet-named Planetary Alignment, each of the profile's final fire, earth,
air and water values equals the sum of the per-element deltas over ALL
breakdown entries (the Base Percentages entry — fire 50, earth 50, air 60,
water 50 — being itself one of those entries, counted once and not added
again), floored at zero. -/
theorem elementalProfile_breakdown_invariant :
    ∀ (hour : Fin 24) (month : Fin 12) (dateMillis latitudeRaw : ℚ)
      (weather : Option WeatherKind) (events : List UpcomingEvent)
      (dignities : List PlacedDignity) (tattva : Tattva)
      (hourRuler : Planet),
      (∀ e ∈ events,
        e.type = EventType.PlanetaryAlignment → e.nameHasComet = false) →
      (calculateElementalProfile hour month dateMillis latitudeRaw weather
          events dignities tattva hourRuler).fire =
        max 0 (sumFire (calculateElementalProfile hour month dateMillis
          latitudeRaw weather events dignities tattva hourRuler).breakdown) ∧
      (calculateElementalProfile hour month dateMillis latitudeRaw weather
          events dignities tattva hourRuler).earth =
        max 0 (sumEarth (calculateElementalProfile hour month dateMillis
          latitudeRaw weather events dignities tattva hourRuler).breakdown) ∧
      (calculateElementalProfile hour month dateMillis latitudeRaw weather
          events dignities tattva hourRuler).air =
        max 0 (sumAir (calculateElementalProfile hour month dateMillis
          latitudeRaw weather events dignities tattva hourRuler).breakdown) ∧
      (calculateElementalProfile hour month dateMillis latitudeRaw weather
          events dignities tattva hourRuler).water =
        max 0 (sumWater (calculateElementalProfile hour month dateMillis
          latitudeRaw weather events dignities tattva hourRuler).breakdown)
    := by
  intro hour month dateMillis latitudeRaw weather events dignities tattva
    hourRuler hc
  simp only [calculateElementalProfile]
  refine ⟨?_, ?_, ?_, ?_⟩
  · rw [sumFire_profileBreakdown _ _ _ _ _ _ _ _ _ _ hc]
    simp only [basePercentages]
  · rw [sumEarth_profileBreakdown _ _ _ _ _ _ _ _ _ _ hc]
    simp only [basePercentages]
  · rw [sumAir_profileBreakdown _ _ _ _ _ _ _ _ _ _ hc]
    simp only [basePercentages]
  · rw [sumWater_profileBreakdown _ _ _ _ _ _ _ _ _ _ hc]
    simp only [basePercentages]

/-- Witness for `elementalProfile_breakdown_invariant` at the concrete
seven-body fixture input. -/
theorem elementalProfile_breakdown_invariant_witness :
    (∀ e ∈ ([] : List UpcomingEvent),
      e.type = EventType.PlanetaryAlignment → e.nameHasComet = false) ∧
    ((calculateElementalProfile 12 0 0 0 none [] sampleDignities .Prithvi
        .Saturn).fire =
      max 0 (sumFire (calculateElementalProfile 12 0 0 0 none []
        sampleDignities .Prithvi .Saturn).breakdown) ∧
    (calculateElementalProfile 12 0 0 0 none [] sampleDignities .Prithvi
        .Saturn).earth =
      max 0 (sumEarth (calculateElementalProfile 12 0 0 0 none []
        sampleDignities .Prithvi .Saturn).breakdown) ∧
    (calculateElementalProfile 12 0 0 0 none [] sampleDignities .Prithvi
        .Saturn).air =
      max 0 (sumAir (calculateElementalProfile 12 0 0 0 none []
        sampleDignities .Prithvi .Saturn).breakdown) ∧
    (calculateElementalProfile 12 0 0 0 none [] sampleDignities .Prithvi
        .Saturn).water =
      max 0 (sumWater (calculateElementalProfile 12 0 0 0 none []
        sampleDignities .Prithvi .Saturn).breakdown)) :=
  ⟨by simp,
    elementalProfile_breakdown_invariant 12 0 0 0 none [] sampleDignities
      .Prithvi .Saturn (by simp)⟩

end Aterica
